import Mathlib

/-!
Shallow embedding of `kospeech/decode/search.py` (classes `GreedySearch` and
`BeamSearch`).

Modelling conventions:
* Tensors of label ids become `List (List Int)` (one row per batch element);
  `targets[:, 1:]` becomes mapping `List.drop 1` over the rows.
* A batch is the 4-tuple yielded by `queue.get()`; the sentinel test
  `inputs.shape[0] == 0` reads only the input rows.
* The blocking queue becomes a `List Batch`; an exhausted list corresponds to
  the consumer blocking forever, reported as the outcome `blocked`.
* External collaborators (model inference, the error-rate arithmetic of
  `CharacterErrorRate` / `WordErrorRate`, the vocabulary's `label_to_string`)
  are abstract function parameters/fields: the code under study only routes
  values through them.  The metric object constructed by `__init__` is kept
  symbolically (`MetricFn`), and its numeric evaluation is a parameter
  `evalM` of `search`.
* `model.eval()` / `.to(device)` / `.cpu().detach().numpy()` are device and
  autograd bookkeeping with no data-flow effect here and are omitted.
* `logger.info('cer: ...')` calls become a trace of `(timestep, cer)` pairs
  returned alongside the result.
* Python raising `ValueError` becomes an explicit error outcome.
-/

/-- The concrete Python class of a (possibly wrapped) model module.
`other s` stands for any class that is none of the three recognized ones;
`s` is the class name used in the exception message. -/
inductive ModelClass where
  | listenAttendSpell
  | speechTransformer
  | deepSpeech2
  | other (name : String)
deriving DecidableEq, Repr

/-- A decoder object: either an ordinary decoder (abstract id) or a
`TopKDecoder(decoder, k)` wrapping another decoder with beam width `k`. -/
inductive Decoder where
  | base (id : Nat)
  | topKDecoder (inner : Decoder) (k : Nat)
deriving DecidableEq, Repr

/-- The argument tuple passed to `model.inference`, keeping track of which
call convention was used:
`withDevice` = `(inputs, input_lengths, device)` (ListenAttendSpell),
`plain` = `(inputs, input_lengths)` (SpeechTransformer),
`withBlank` = `(inputs, input_lengths, blank_label)` (DeepSpeech2). -/
inductive InferenceArgs where
  | withDevice (inputs : List (List Int)) (input_lengths : List Nat) (device : String)
  | plain (inputs : List (List Int)) (input_lengths : List Nat)
  | withBlank (inputs : List (List Int)) (input_lengths : List Nat) (blank_label : Nat)
deriving DecidableEq, Repr

/-- A bare model module: its concrete class, its decoder attribute, and its
(abstract) `inference` method, producing one hypothesis row per element. -/
structure CoreModel where
  cls : ModelClass
  decoder : Decoder
  inference : InferenceArgs → List (List Int)

/-- `set_decoder` replaces the model's decoder attribute. -/
def CoreModel.set_decoder (m : CoreModel) (d : Decoder) : CoreModel :=
  { m with decoder := d }

/-- A model as `search` receives it: either a bare module or a module wrapped
in `nn.DataParallel` (whose `.module` attribute is the wrapped module). -/
inductive NNModule where
  | core (m : CoreModel)
  | dataParallel (module : CoreModel)

/-- The underlying module: the model itself, or `.module` under DataParallel. -/
def NNModule.coreOf : NNModule → CoreModel
  | .core m => m
  | .dataParallel m => m

/-- Invoking `model.inference(...)`; multi-device execution is the wrapper's
concern and is opaque here, so it delegates to the underlying module. -/
def NNModule.inference (model : NNModule) (args : InferenceArgs) : List (List Int) :=
  model.coreOf.inference args

/-- The vocabulary collaborator: `len(vocab)` and `vocab.label_to_string`. -/
structure Vocab where
  size : Nat
  label_to_string : List Int → String

/-- The metric object selected at construction:
`CharacterErrorRate(vocab)` or `WordErrorRate(vocab)`. -/
inductive MetricFn where
  | characterErrorRate (vocab : Vocab)
  | wordErrorRate (vocab : Vocab)

/-- Evaluation of the metric collaborator (`self.metric(targets, hypothesis)`)
is external edit-distance arithmetic; `MetricEval` is its abstract type. -/
def MetricEval : Type :=
  MetricFn → List (List Int) → List (List Int) → ℚ

/-- The tuple `(inputs, targets, input_lengths, target_lengths)` yielded by
`queue.get()`. -/
structure Batch where
  inputs : List (List Int)
  targets : List (List Int)
  input_lengths : List Nat
  target_lengths : List Nat
deriving DecidableEq, Repr

/-- The state a `GreedySearch` instance carries across calls:
`self.target_list`, `self.predict_list`, `self.vocab`, `self.metric`. -/
structure GreedySearchState where
  target_list : List String
  predict_list : List String
  vocab : Vocab
  metric : MetricFn

/-- `GreedySearch.__init__(vocab, metric)`: selects the metric object from the
metric-kind string or raises `ValueError` at construction time. -/
def GreedySearch.init (vocab : Vocab) (metric : String) :
    Except String GreedySearchState :=
  if metric = "char" then
    .ok ⟨[], [], vocab, .characterErrorRate vocab⟩
  else if metric = "word" then
    .ok ⟨[], [], vocab, .wordErrorRate vocab⟩
  else
    .error ("Unsupported metric : " ++ metric)

/-- The two `ValueError`s `search` can raise: `unsupportedModel name` from the
pre-loop `isinstance` chain (message formats the model's type), and
`unsupportedTag arch` from the `else` arm of the in-loop inference dispatch
(message formats the architecture string). -/
inductive SearchError where
  | unsupportedModel (clsName : String)
  | unsupportedTag (arch : String)
deriving DecidableEq, Repr

/-- The pre-loop `isinstance` chain of `GreedySearch.search`: unwrap
`nn.DataParallel` if present, then map the concrete class to its architecture
string, raising on anything else. -/
def identifyArchitecture : NNModule → Except SearchError String
  | .dataParallel m =>
    match m.cls with
    | .listenAttendSpell => .ok "las"
    | .speechTransformer => .ok "transformer"
    | .deepSpeech2 => .ok "deepspeech2"
    | .other name => .error (.unsupportedModel name)
  | .core m =>
    match m.cls with
    | .listenAttendSpell => .ok "las"
    | .speechTransformer => .ok "transformer"
    | .deepSpeech2 => .ok "deepspeech2"
    | .other name => .error (.unsupportedModel name)

/-- The in-loop inference dispatch: from the architecture string, build the
argument tuple `model.inference` is called with (`blank_label = len(vocab)`
for DeepSpeech2), or reach the `else` arm and raise. -/
def inferenceCall (arch : String) (inputs : List (List Int))
    (input_lengths : List Nat) (device : String) (vocabSize : Nat) :
    Except SearchError InferenceArgs :=
  if arch = "las" then .ok (.withDevice inputs input_lengths device)
  else if arch = "transformer" then .ok (.plain inputs input_lengths)
  else if arch = "deepspeech2" then .ok (.withBlank inputs input_lengths vocabSize)
  else .error (.unsupportedTag arch)

/-- The mutable locals of the `while` loop of `search`, together with the
instance lists it appends to. -/
structure LoopState where
  target_list : List String
  predict_list : List String
  cer : ℚ
  total_sent_num : Nat
  timestep : Nat

/-- What `search` produces on normal termination: the updated instance lists,
the returned `cer`, and the trace of `logger.info` emissions
(`(timestep, cer)` pairs). -/
structure SearchResult where
  target_list : List String
  predict_list : List String
  cer : ℚ
  logs : List (Nat × ℚ)

/-- Outcome of a `search` call: normal return, a raised `ValueError`, or
blocking forever on `queue.get()` (batch list exhausted with no sentinel). -/
inductive SearchOutcome where
  | ok (r : SearchResult)
  | error (e : SearchError)
  | blocked

/-- The `while True` loop of `GreedySearch.search`, one iteration per list
element: break on the sentinel (`inputs.shape[0] == 0`), otherwise dispatch
inference by architecture string, decode targets and hypotheses to text and
append them, recompute `cer`, log when `timestep % print_every == 0`, and
continue with `timestep + 1`. -/
def searchLoop (evalM : MetricEval) (model : NNModule) (arch : String)
    (vocab : Vocab) (metric : MetricFn) (device : String) (print_every : Nat)
    (st : LoopState) : List Batch → SearchOutcome
  | [] => .blocked
  | b :: rest =>
    if b.inputs.length = 0 then
      .ok ⟨st.target_list, st.predict_list, st.cer, []⟩
    else
      match inferenceCall arch b.inputs b.input_lengths device vocab.size with
      | .error e => .error e
      | .ok args =>
        let hypothesis := model.inference args
        let st' : LoopState :=
          { target_list := st.target_list ++ b.targets.map vocab.label_to_string
            predict_list := st.predict_list ++ (List.range b.targets.length).map
              (fun idx => vocab.label_to_string (hypothesis.getD idx []))
            cer := evalM metric (b.targets.map (List.drop 1)) hypothesis
            total_sent_num := st.total_sent_num + b.targets.length
            timestep := st.timestep + 1 }
        match searchLoop evalM model arch vocab metric device print_every st' rest with
        | .ok r =>
          .ok { r with logs :=
            (if st.timestep % print_every = 0 then [(st.timestep, st'.cer)] else [])
              ++ r.logs }
        | o => o

/-- `GreedySearch.search(model, queue, device, print_every)`: identify the
architecture (raising on an unrecognized model before any batch is fetched),
then run the batch loop starting from `cer = 0`, `total_sent_num = 0`,
`timestep = 0` and the instance's current lists. -/
def GreedySearch.search (evalM : MetricEval) (s : GreedySearchState)
    (model : NNModule) (queue : List Batch) (device : String)
    (print_every : Nat) : SearchOutcome :=
  match identifyArchitecture model with
  | .error e => .error e
  | .ok arch =>
    searchLoop evalM model arch s.vocab s.metric device print_every
      ⟨s.target_list, s.predict_list, 0, 0, 0⟩ queue

/-- `GreedySearch.save_result`: serializes the two instance lists as rows of a
two-column table; it reads the instance state and appends nothing to it. -/
def GreedySearch.save_result (s : GreedySearchState) : List (String × String) :=
  s.target_list.zip s.predict_list

/-- `BeamSearch` instance state: the inherited `GreedySearch` attributes
(initialized by `super().__init__(vocab)`, hence with the default metric kind)
plus the beam width `self.k`. -/
structure BeamSearchState extends GreedySearchState where
  k : Nat

/-- `BeamSearch.__init__(vocab, k)`: calls `super().__init__(vocab)` (metric
kind left at its default `'char'`) and stores `k`. -/
def BeamSearch.init (vocab : Vocab) (k : Nat) : Except String BeamSearchState :=
  (GreedySearch.init vocab "char").map (fun g => { g with k := k })

/-- `BeamSearch.search`: build `TopKDecoder(decoder, k)` from the model's (or
the wrapped module's) decoder, install it with `set_decoder`, then delegate to
`GreedySearch.search` on the same arguments. -/
def BeamSearch.search (evalM : MetricEval) (s : BeamSearchState)
    (model : NNModule) (queue : List Batch) (device : String)
    (print_every : Nat) : SearchOutcome :=
  match model with
  | .dataParallel m =>
    let topk_decoder := Decoder.topKDecoder m.decoder s.k
    GreedySearch.search evalM s.toGreedySearchState
      (.dataParallel (m.set_decoder topk_decoder)) queue device print_every
  | .core m =>
    let topk_decoder := Decoder.topKDecoder m.decoder s.k
    GreedySearch.search evalM s.toGreedySearchState
      (.core (m.set_decoder topk_decoder)) queue device print_every

/-- Spec-side formulation of the beam strategy's extra step: install a
`TopKDecoder` over the model's decoder (unwrapping a multi-device wrapper
transparently), leaving everything else about the model unchanged. -/
def installTopKDecoder (model : NNModule) (k : Nat) : NNModule :=
  match model with
  | .core m => .core { m with decoder := .topKDecoder m.decoder k }
  | .dataParallel m => .dataParallel { m with decoder := .topKDecoder m.decoder k }

/-! ### Characterizing the batch loop -/

/-- The architecture strings the pre-loop identification can produce. -/
def recognizedTag (arch : String) : Prop :=
  arch = "las" ∨ arch = "transformer" ∨ arch = "deepspeech2"

/-- The hypothesis rows produced for one (non-sentinel) batch: the result of
the dispatched `model.inference` call (junk if the dispatch would raise). -/
def batchHypothesis (model : NNModule) (arch : String) (device : String)
    (vocabSize : Nat) (b : Batch) : List (List Int) :=
  match inferenceCall arch b.inputs b.input_lengths device vocabSize with
  | .ok args => model.inference args
  | .error _ => []

/-- The effect of one non-sentinel loop iteration on the loop state. -/
def stepState (evalM : MetricEval) (model : NNModule) (arch : String)
    (vocab : Vocab) (metric : MetricFn) (device : String)
    (st : LoopState) (b : Batch) : LoopState :=
  let hypothesis := batchHypothesis model arch device vocab.size b
  { target_list := st.target_list ++ b.targets.map vocab.label_to_string
    predict_list := st.predict_list ++ (List.range b.targets.length).map
      (fun idx => vocab.label_to_string (hypothesis.getD idx []))
    cer := evalM metric (b.targets.map (List.drop 1)) hypothesis
    total_sent_num := st.total_sent_num + b.targets.length
    timestep := st.timestep + 1 }

/-- The trace of log emissions produced while processing a list of
non-sentinel batches from a given loop state. -/
def loopLogs (evalM : MetricEval) (model : NNModule) (arch : String)
    (vocab : Vocab) (metric : MetricFn) (device : String) (print_every : Nat) :
    LoopState → List Batch → List (Nat × ℚ)
  | _, [] => []
  | st, b :: bs =>
    (if st.timestep % print_every = 0 then
      [(st.timestep, (stepState evalM model arch vocab metric device st b).cer)]
    else [])
      ++ loopLogs evalM model arch vocab metric device print_every
          (stepState evalM model arch vocab metric device st b) bs

lemma identifyArchitecture_recognized {model : NNModule} {arch : String}
    (h : identifyArchitecture model = .ok arch) : recognizedTag arch := by
  cases model with
  | core m =>
    cases hc : m.cls <;> simp [identifyArchitecture, hc] at h <;>
      simp [recognizedTag, h.symm]
  | dataParallel m =>
    cases hc : m.cls <;> simp [identifyArchitecture, hc] at h <;>
      simp [recognizedTag, h.symm]

lemma inferenceCall_ok_of_recognized {arch : String} (h : recognizedTag arch)
    (inputs : List (List Int)) (input_lengths : List Nat) (device : String)
    (vocabSize : Nat) :
    ∃ args, inferenceCall arch inputs input_lengths device vocabSize = .ok args := by
  rcases h with h | h | h <;> subst h <;> exact ⟨_, rfl⟩

lemma searchLoop_cons {b : Batch} (hb : ¬ b.inputs.length = 0)
    (evalM : MetricEval) (model : NNModule) {arch : String} (vocab : Vocab)
    (metric : MetricFn) (device : String) (print_every : Nat)
    (st : LoopState) (rest : List Batch) {args : InferenceArgs}
    (hargs : inferenceCall arch b.inputs b.input_lengths device vocab.size = .ok args) :
    searchLoop evalM model arch vocab metric device print_every st (b :: rest) =
      match searchLoop evalM model arch vocab metric device print_every
          (stepState evalM model arch vocab metric device st b) rest with
      | .ok r => .ok { r with logs :=
          (if st.timestep % print_every = 0 then
            [(st.timestep, (stepState evalM model arch vocab metric device st b).cer)]
          else []) ++ r.logs }
      | o => o := by
  simp only [searchLoop, hb, if_false, hargs, stepState, batchHypothesis]

lemma searchLoop_run (evalM : MetricEval) (model : NNModule) {arch : String}
    (harch : recognizedTag arch) (vocab : Vocab) (metric : MetricFn)
    (device : String) (print_every : Nat) :
    ∀ (bs : List Batch) (st : LoopState),
      (∀ b ∈ bs, ¬ b.inputs.length = 0) →
      ∀ (sb : Batch) (rest : List Batch), sb.inputs.length = 0 →
      searchLoop evalM model arch vocab metric device print_every st
          (bs ++ sb :: rest) =
        .ok ⟨(List.foldl (stepState evalM model arch vocab metric device) st bs).target_list,
             (List.foldl (stepState evalM model arch vocab metric device) st bs).predict_list,
             (List.foldl (stepState evalM model arch vocab metric device) st bs).cer,
             loopLogs evalM model arch vocab metric device print_every st bs⟩ := by
  intro bs
  induction bs with
  | nil =>
    intro st _ sb rest hsb
    simp [searchLoop, hsb, loopLogs]
  | cons b bs ih =>
    intro st hns sb rest hsb
    have hb : ¬ b.inputs.length = 0 := hns b (List.mem_cons_self b bs)
    obtain ⟨args, hargs⟩ :=
      inferenceCall_ok_of_recognized harch b.inputs b.input_lengths device vocab.size
    rw [List.cons_append,
      searchLoop_cons hb evalM model vocab metric device print_every st
        (bs ++ sb :: rest) hargs,
      ih _ (fun x hx => hns x (List.mem_cons_of_mem b hx)) sb rest hsb]
    simp [loopLogs, List.foldl_cons]

lemma foldl_stepState_target_length (evalM : MetricEval) (model : NNModule)
    (arch : String) (vocab : Vocab) (metric : MetricFn) (device : String) :
    ∀ (bs : List Batch) (st : LoopState),
      (List.foldl (stepState evalM model arch vocab metric device) st bs).target_list.length
        = st.target_list.length + (bs.map (fun b => b.targets.length)).sum := by
  intro bs
  induction bs with
  | nil => intro st; simp
  | cons b bs ih =>
    intro st
    rw [List.foldl_cons, ih]
    simp [stepState]
    omega

lemma foldl_stepState_predict_length (evalM : MetricEval) (model : NNModule)
    (arch : String) (vocab : Vocab) (metric : MetricFn) (device : String) :
    ∀ (bs : List Batch) (st : LoopState),
      (List.foldl (stepState evalM model arch vocab metric device) st bs).predict_list.length
        = st.predict_list.length + (bs.map (fun b => b.targets.length)).sum := by
  intro bs
  induction bs with
  | nil => intro st; simp
  | cons b bs ih =>
    intro st
    rw [List.foldl_cons, ih]
    simp [stepState]
    omega

lemma loopLogs_timesteps (evalM : MetricEval) (model : NNModule)
    (arch : String) (vocab : Vocab) (metric : MetricFn) (device : String)
    (print_every : Nat) :
    ∀ (bs : List Batch) (st : LoopState),
      (loopLogs evalM model arch vocab metric device print_every st bs).map Prod.fst
        = ((List.range bs.length).map (fun i => st.timestep + i)).filter
            (fun t => t % print_every = 0) := by
  intro bs
  induction bs with
  | nil => intro st; simp [loopLogs]
  | cons b bs ih =>
    intro st
    have hts : (stepState evalM model arch vocab metric device st b).timestep
        = st.timestep + 1 := rfl
    have hmap : (List.range bs.length).map (fun i => st.timestep + Nat.succ i)
        = (List.range bs.length).map (fun i => st.timestep + 1 + i) :=
      List.map_congr_left (fun i _ => by omega)
    rw [loopLogs, List.map_append, ih, hts, List.length_cons,
      List.range_succ_eq_map, List.map_cons, List.map_map]
    have hcomp : ((fun i => st.timestep + i) ∘ Nat.succ)
        = (fun i => st.timestep + Nat.succ i) := rfl
    rw [hcomp, hmap, List.filter_cons]
    by_cases h : st.timestep % print_every = 0
    · simp [h]
    · simp [h]

lemma identifyArchitecture_error {model : NNModule} {e : SearchError}
    (h : identifyArchitecture model = .error e) :
    ∃ name, e = .unsupportedModel name := by
  cases model with
  | core m =>
    cases hc : m.cls <;> simp [identifyArchitecture, hc] at h
    exact ⟨_, h.symm⟩
  | dataParallel m =>
    cases hc : m.cls <;> simp [identifyArchitecture, hc] at h
    exact ⟨_, h.symm⟩

lemma searchLoop_not_error (evalM : MetricEval) (model : NNModule)
    {arch : String} (harch : recognizedTag arch) (vocab : Vocab)
    (metric : MetricFn) (device : String) (print_every : Nat) :
    ∀ (queue : List Batch) (st : LoopState) (e : SearchError),
      ¬ searchLoop evalM model arch vocab metric device print_every st queue
        = .error e := by
  intro queue
  induction queue with
  | nil => intro st e h; simp [searchLoop] at h
  | cons b rest ih =>
    intro st e h
    by_cases hb : b.inputs.length = 0
    · simp [searchLoop, hb] at h
    · obtain ⟨args, hargs⟩ := inferenceCall_ok_of_recognized harch
        b.inputs b.input_lengths device vocab.size
      rw [searchLoop_cons hb evalM model vocab metric device print_every st rest hargs] at h
      cases hrec : searchLoop evalM model arch vocab metric device print_every
          (stepState evalM model arch vocab metric device st b) rest with
      | ok r => rw [hrec] at h; simp at h
      | error e2 => exact ih _ e2 hrec
      | blocked => rw [hrec] at h; simp at h

lemma search_eq_searchLoop (evalM : MetricEval) (s : GreedySearchState)
    {model : NNModule} {arch : String} (queue : List Batch) (device : String)
    (print_every : Nat) (harch : identifyArchitecture model = .ok arch) :
    GreedySearch.search evalM s model queue device print_every =
      searchLoop evalM model arch s.vocab s.metric device print_every
        ⟨s.target_list, s.predict_list, 0, 0, 0⟩ queue := by
  unfold GreedySearch.search
  rw [harch]

/-! ### Concrete sample data -/

/-- A small concrete vocabulary. -/
def vocab0 : Vocab := ⟨5, fun labels => toString labels.length⟩

/-- A concrete metric evaluation: returns the number of target rows (enough to
distinguish batches of different sizes). -/
def evalM0 : MetricEval := fun _ ts _ => (ts.length : ℚ)

/-- A concrete `ListenAttendSpell` model. -/
def mLas : CoreModel := ⟨.listenAttendSpell, .base 0, fun _ => [[1], [2]]⟩

/-- A concrete `SpeechTransformer` model. -/
def mTf : CoreModel := ⟨.speechTransformer, .base 1, fun _ => [[3]]⟩

/-- A concrete `DeepSpeech2` model. -/
def mDs2 : CoreModel := ⟨.deepSpeech2, .base 2, fun _ => [[4]]⟩

/-- A concrete model of an unrecognized class. -/
def mOther : CoreModel := ⟨.other "FooNet", .base 3, fun _ => []⟩

/-- A sentinel batch (no input rows) with non-empty target and length fields,
exercising that sentinel detection reads only the input feature count. -/
def sentinelBatch : Batch := ⟨[], [[9, 9]], [3], [2]⟩

/-- A concrete one-element batch. -/
def batch1 : Batch := ⟨[[0]], [[7, 1]], [1], [2]⟩

/-- A concrete two-element batch. -/
def batch2 : Batch := ⟨[[0], [1]], [[5, 2], [6, 3]], [1, 1], [2, 2]⟩

/-- A freshly constructed greedy strategy state over `vocab0`. -/
def gstate0 : GreedySearchState := ⟨[], [], vocab0, .characterErrorRate vocab0⟩

/-! ### The claims -/

/-- Claim C1: for every model, queue, device and `print_every`,
`BeamSearch.search` first installs a `TopKDecoder` — built from the model's
decoder and the beam width `k`, unwrapping a multi-device `DataParallel`
wrapper if present — as the model's decoder, and then returns exactly the
result of `GreedySearch.search` on the same arguments; it performs no other
step of its own. -/
theorem beamSearch_installs_topk_then_delegates
    (evalM : MetricEval) (s : BeamSearchState) (model : NNModule)
    (queue : List Batch) (device : String) (print_every : Nat) :
    (installTopKDecoder model s.k).coreOf =
      model.coreOf.set_decoder (.topKDecoder model.coreOf.decoder s.k)
    ∧ BeamSearch.search evalM s model queue device print_every =
      GreedySearch.search evalM s.toGreedySearchState
        (installTopKDecoder model s.k) queue device print_every := by
  cases model <;> exact ⟨rfl, rfl⟩

/-- Claim C2: for a batch source yielding N ≥ 1 non-sentinel batches and then
the sentinel, `search` returns the metric value computed on the last batch
alone — each batch's metric computation overwrites the previous value, and
the returned value is the last one computed, not a cumulative average. -/
theorem search_returns_last_batch_metric
    (evalM : MetricEval) (s : GreedySearchState) (model : NNModule)
    (arch : String) (device : String) (print_every : Nat)
    (bs : List Batch) (blast sb : Batch) (args : InferenceArgs)
    (harch : identifyArchitecture model = .ok arch)
    (hns : ∀ b ∈ bs ++ [blast], ¬ b.inputs.length = 0)
    (hsb : sb.inputs.length = 0)
    (hargs : inferenceCall arch blast.inputs blast.input_lengths device
      s.vocab.size = .ok args) :
    ∃ r : SearchResult,
      GreedySearch.search evalM s model (bs ++ [blast] ++ [sb]) device
          print_every = .ok r
      ∧ r.cer = evalM s.metric (blast.targets.map (List.drop 1))
          (model.inference args) := by
  have hrec := identifyArchitecture_recognized harch
  rw [search_eq_searchLoop evalM s (bs ++ [blast] ++ [sb]) device print_every harch,
    show bs ++ [blast] ++ [sb] = (bs ++ [blast]) ++ sb :: [] from rfl,
    searchLoop_run evalM model hrec s.vocab s.metric device print_every
      (bs ++ [blast]) _ hns sb [] hsb]
  refine ⟨_, rfl, ?_⟩
  rw [List.foldl_append]
  simp [stepState, batchHypothesis, hargs]

/-- Witness for claim C2: a concrete run with two non-sentinel batches; the
returned metric is the one computed on the second (last) batch. -/
theorem search_returns_last_batch_metric_witness :
    ∃ r : SearchResult,
      GreedySearch.search evalM0 gstate0 (.core mLas)
          ([batch1] ++ [batch2] ++ [sentinelBatch]) "cpu" 1 = .ok r
      ∧ r.cer = evalM0 gstate0.metric (batch2.targets.map (List.drop 1))
          ((NNModule.core mLas).inference
            (.withDevice batch2.inputs batch2.input_lengths "cpu")) :=
  search_returns_last_batch_metric evalM0 gstate0 (.core mLas) "las" "cpu" 1
    [batch1] batch2 sentinelBatch
    (.withDevice batch2.inputs batch2.input_lengths "cpu")
    rfl (by decide) rfl rfl

/-- Claim C3: for a batch source whose first yielded batch is the sentinel
(zero input rows), `search` of a recognized model returns 0, appends nothing
to the target or prediction list, and never invokes model inference — the
conclusion is the same for every model whose identification succeeds,
whatever its `inference` method does, and the sentinel's target and length
fields are arbitrary: detection uses only the input feature count. -/
theorem search_sentinel_first_returns_zero
    (evalM : MetricEval) (s : GreedySearchState) (model : NNModule)
    (arch : String) (device : String) (print_every : Nat)
    (sb : Batch) (rest : List Batch)
    (harch : identifyArchitecture model = .ok arch)
    (hsb : sb.inputs.length = 0) :
    GreedySearch.search evalM s model (sb :: rest) device print_every =
      .ok ⟨s.target_list, s.predict_list, 0, []⟩ := by
  rw [search_eq_searchLoop evalM s (sb :: rest) device print_every harch]
  simp [searchLoop, hsb]

/-- Witness for claim C3: a concrete sentinel-first run (the sentinel batch
has non-empty target and length fields). -/
theorem search_sentinel_first_returns_zero_witness :
    GreedySearch.search evalM0 gstate0 (.core mDs2)
        (sentinelBatch :: [batch1]) "cpu" 3 =
      .ok ⟨gstate0.target_list, gstate0.predict_list, 0, []⟩ :=
  search_sentinel_first_returns_zero evalM0 gstate0 (.core mDs2) "deepspeech2"
    "cpu" 3 sentinelBatch [batch1] rfl rfl

/-- Claim C4: for every model whose concrete type (after unwrapping a
multi-device wrapper, if present) is none of the three recognized classes,
`search` raises the unsupported-architecture error; the outcome is the same
for every queue — in particular the empty one — so the batch source is never
consumed. -/
theorem search_unrecognized_model_errors
    (evalM : MetricEval) (s : GreedySearchState) (model : NNModule)
    (queue : List Batch) (device : String) (print_every : Nat) (name : String)
    (hcls : model.coreOf.cls = .other name) :
    GreedySearch.search evalM s model queue device print_every =
      .error (.unsupportedModel name) := by
  cases model with
  | core m =>
    have h : m.cls = .other name := hcls
    simp [GreedySearch.search, identifyArchitecture, h]
  | dataParallel m =>
    have h : m.cls = .other name := hcls
    simp [GreedySearch.search, identifyArchitecture, h]

/-- Witness for claim C4: a concrete unrecognized model fails with the
unsupported-architecture error on a non-empty queue. -/
theorem search_unrecognized_model_errors_witness :
    GreedySearch.search evalM0 gstate0 (.core mOther)
        [batch1, sentinelBatch] "cpu" 1 =
      .error (.unsupportedModel "FooNet") :=
  search_unrecognized_model_errors evalM0 gstate0 (.core mOther)
    [batch1, sentinelBatch] "cpu" 1 "FooNet" rfl

/-- Claim C5: for each recognized architecture, identification assigns the
correct tag whether the model is bare or wrapped in a multi-device
`DataParallel` wrapper, and the same tag selects the matching inference call
convention: `las` passes the device along with inputs and lengths,
`transformer` passes only inputs and lengths, and `deepspeech2` passes a
blank label equal to the vocabulary size. -/
theorem identify_and_dispatch_by_architecture
    (m : CoreModel) (s : GreedySearchState) (inputs : List (List Int))
    (input_lengths : List Nat) (device : String) :
    (m.cls = .listenAttendSpell →
      identifyArchitecture (.core m) = .ok "las"
      ∧ identifyArchitecture (.dataParallel m) = .ok "las"
      ∧ inferenceCall "las" inputs input_lengths device s.vocab.size =
          .ok (.withDevice inputs input_lengths device))
    ∧ (m.cls = .speechTransformer →
      identifyArchitecture (.core m) = .ok "transformer"
      ∧ identifyArchitecture (.dataParallel m) = .ok "transformer"
      ∧ inferenceCall "transformer" inputs input_lengths device s.vocab.size =
          .ok (.plain inputs input_lengths))
    ∧ (m.cls = .deepSpeech2 →
      identifyArchitecture (.core m) = .ok "deepspeech2"
      ∧ identifyArchitecture (.dataParallel m) = .ok "deepspeech2"
      ∧ inferenceCall "deepspeech2" inputs input_lengths device s.vocab.size =
          .ok (.withBlank inputs input_lengths s.vocab.size)) := by
  refine ⟨fun h => ?_, fun h => ?_, fun h => ?_⟩ <;>
    simp [identifyArchitecture, h, inferenceCall]

/-- Witness for claim C5: concrete models of each recognized class, bare and
wrapped, with their dispatched call conventions. -/
theorem identify_and_dispatch_by_architecture_witness :
    identifyArchitecture (.core mLas) = .ok "las"
    ∧ identifyArchitecture (.dataParallel mTf) = .ok "transformer"
    ∧ inferenceCall "deepspeech2" [[0]] [1] "cpu" gstate0.vocab.size =
        .ok (.withBlank [[0]] [1] gstate0.vocab.size) :=
  ⟨((identify_and_dispatch_by_architecture mLas gstate0 [[0]] [1] "cpu").1 rfl).1,
   ((identify_and_dispatch_by_architecture mTf gstate0 [[0]] [1] "cpu").2.1 rfl).2.1,
   ((identify_and_dispatch_by_architecture mDs2 gstate0 [[0]] [1] "cpu").2.2 rfl).2.2⟩

/-- Claim C6: over a run processing batches indexed 0, 1, 2, … with
`print_every = P > 0`, a progress report of the current metric is emitted
exactly on the batch indices divisible by P and on no other indices. -/
theorem search_log_cadence
    (evalM : MetricEval) (s : GreedySearchState) (model : NNModule)
    (arch : String) (device : String) (print_every : Nat)
    (bs : List Batch) (sb : Batch)
    (harch : identifyArchitecture model = .ok arch)
    (hns : ∀ b ∈ bs, ¬ b.inputs.length = 0)
    (hsb : sb.inputs.length = 0)
    (_hP : 0 < print_every) :
    ∃ r : SearchResult,
      GreedySearch.search evalM s model (bs ++ [sb]) device print_every = .ok r
      ∧ r.logs.map Prod.fst =
          (List.range bs.length).filter (fun t => t % print_every = 0) := by
  have hrec := identifyArchitecture_recognized harch
  rw [search_eq_searchLoop evalM s (bs ++ [sb]) device print_every harch,
    show bs ++ [sb] = bs ++ sb :: [] from rfl,
    searchLoop_run evalM model hrec s.vocab s.metric device print_every bs _
      hns sb [] hsb]
  refine ⟨_, rfl, ?_⟩
  rw [loopLogs_timesteps]
  simp

/-- Witness for claim C6: four batches with `print_every = 2`; reports are
emitted on indices 0 and 2 only. -/
theorem search_log_cadence_witness :
    ∃ r : SearchResult,
      GreedySearch.search evalM0 gstate0 (.core mLas)
          ([batch1, batch2, batch1, batch2] ++ [sentinelBatch]) "cpu" 2 = .ok r
      ∧ r.logs.map Prod.fst =
          (List.range [batch1, batch2, batch1, batch2].length).filter
            (fun t => t % 2 = 0) :=
  search_log_cadence evalM0 gstate0 (.core mLas) "las" "cpu" 2
    [batch1, batch2, batch1, batch2] sentinelBatch rfl (by decide) rfl
    (by decide)

/-- Claim C7: constructing a greedy strategy with a metric-kind string other
than "char" or "word" fails with the invalid-metric error at construction
time; with "char" or "word" construction succeeds and selects the character
or word error-rate metric respectively.  No metric-kind check exists at
decode time: `SearchError`, the only error type `search` can raise, has no
metric-kind variant. -/
theorem init_metric_kind (v : Vocab) :
    GreedySearch.init v "char" = .ok ⟨[], [], v, .characterErrorRate v⟩
    ∧ GreedySearch.init v "word" = .ok ⟨[], [], v, .wordErrorRate v⟩
    ∧ ∀ mk : String, ¬ mk = "char" → ¬ mk = "word" →
        GreedySearch.init v mk = .error ("Unsupported metric : " ++ mk) := by
  refine ⟨rfl, by simp [GreedySearch.init], ?_⟩
  intro mk h1 h2
  simp [GreedySearch.init, h1, h2]

/-- Witness for claim C7: the two supported kinds on a concrete vocabulary,
and a concrete unsupported kind failing at construction. -/
theorem init_metric_kind_witness :
    GreedySearch.init vocab0 "char" =
      .ok ⟨[], [], vocab0, .characterErrorRate vocab0⟩
    ∧ GreedySearch.init vocab0 "phoneme" =
      .error ("Unsupported metric : " ++ "phoneme") :=
  ⟨(init_metric_kind vocab0).1,
   (init_metric_kind vocab0).2.2 "phoneme" (by decide) (by decide)⟩

/-- Claim C8 counterexample: `BeamSearch.__init__` takes only a vocabulary
and a beam width — there is no metric-kind argument (visible in the type of
`BeamSearch.init`), and the constructed beam strategy always carries the
character error-rate metric, so the word error-rate metric is never
selectable, contradicting the claim that the beam constructor accepts a
metric-kind argument selecting between the two. -/
theorem beamSearch_init_no_metric_kind_cex :
    BeamSearch.init vocab0 3 =
      .ok ⟨⟨[], [], vocab0, .characterErrorRate vocab0⟩, 3⟩
    ∧ ¬ MetricFn.characterErrorRate vocab0 = .wordErrorRate vocab0 :=
  ⟨rfl, fun h => MetricFn.noConfusion h⟩

/-- Claim C8 (amended): the greedy strategy is constructed over a vocabulary
and a metric kind selecting between character and word error rate; the beam
strategy is constructed over a vocabulary and a beam width only, and always
uses the character error-rate metric (the superclass default), accepting no
metric-kind argument. -/
theorem strategy_construction
    (v : Vocab) (k : Nat) :
    (GreedySearch.init v "char" = .ok ⟨[], [], v, .characterErrorRate v⟩
      ∧ GreedySearch.init v "word" = .ok ⟨[], [], v, .wordErrorRate v⟩)
    ∧ BeamSearch.init v k = .ok ⟨⟨[], [], v, .characterErrorRate v⟩, k⟩ := by
  exact ⟨⟨rfl, by simp [GreedySearch.init]⟩, rfl⟩

/-- Claim C9: the target list and prediction list stay parallel: both start
empty at construction, every processed batch appends exactly one target
string and one prediction string per batch element (in arrival order), so
equal lengths are preserved by `search`; and `save_result` only reads the
two lists (returning their zip) and appends nothing. -/
theorem result_lists_parallel
    (evalM : MetricEval) (s : GreedySearchState) (model : NNModule)
    (arch : String) (device : String) (print_every : Nat)
    (bs : List Batch) (sb : Batch)
    (harch : identifyArchitecture model = .ok arch)
    (hns : ∀ b ∈ bs, ¬ b.inputs.length = 0)
    (hsb : sb.inputs.length = 0) :
    (∀ (v : Vocab) (mk : String) (g : GreedySearchState),
      GreedySearch.init v mk = .ok g →
        g.target_list.length = 0 ∧ g.predict_list.length = 0)
    ∧ (∀ st : GreedySearchState, GreedySearch.save_result st =
        st.target_list.zip st.predict_list)
    ∧ ∃ r : SearchResult,
        GreedySearch.search evalM s model (bs ++ [sb]) device print_every = .ok r
        ∧ r.target_list.length =
            s.target_list.length + (bs.map (fun b => b.targets.length)).sum
        ∧ r.predict_list.length =
            s.predict_list.length + (bs.map (fun b => b.targets.length)).sum
        ∧ (s.target_list.length = s.predict_list.length →
            r.target_list.length = r.predict_list.length) := by
  refine ⟨?_, fun st => rfl, ?_⟩
  · intro v mk g hg
    unfold GreedySearch.init at hg
    split_ifs at hg with h1 h2
    · simp only [Except.ok.injEq] at hg
      subst hg
      exact ⟨rfl, rfl⟩
    · simp only [Except.ok.injEq] at hg
      subst hg
      exact ⟨rfl, rfl⟩
  · have hrec := identifyArchitecture_recognized harch
    rw [search_eq_searchLoop evalM s (bs ++ [sb]) device print_every harch,
      show bs ++ [sb] = bs ++ sb :: [] from rfl,
      searchLoop_run evalM model hrec s.vocab s.metric device print_every bs _
        hns sb [] hsb]
    refine ⟨_, rfl, ?_, ?_, ?_⟩
    · exact foldl_stepState_target_length evalM model arch s.vocab s.metric device bs _
    · exact foldl_stepState_predict_length evalM model arch s.vocab s.metric device bs _
    · intro hinit
      rw [foldl_stepState_target_length, foldl_stepState_predict_length]
      show s.target_list.length + _ = s.predict_list.length + _
      omega

/-- Witness for claim C9: a concrete run over two batches (one and two
elements); three pairs are appended and the lists stay parallel. -/
theorem result_lists_parallel_witness :
    (∀ (v : Vocab) (mk : String) (g : GreedySearchState),
      GreedySearch.init v mk = .ok g →
        g.target_list.length = 0 ∧ g.predict_list.length = 0)
    ∧ (∀ st : GreedySearchState, GreedySearch.save_result st =
        st.target_list.zip st.predict_list)
    ∧ ∃ r : SearchResult,
        GreedySearch.search evalM0 gstate0 (.core mLas)
            ([batch1, batch2] ++ [sentinelBatch]) "cpu" 1 = .ok r
        ∧ r.target_list.length = gstate0.target_list.length +
            ([batch1, batch2].map (fun b => b.targets.length)).sum
        ∧ r.predict_list.length = gstate0.predict_list.length +
            ([batch1, batch2].map (fun b => b.targets.length)).sum
        ∧ (gstate0.target_list.length = gstate0.predict_list.length →
            r.target_list.length = r.predict_list.length) :=
  result_lists_parallel evalM0 gstate0 (.core mLas) "las" "cpu" 1
    [batch1, batch2] sentinelBatch rfl (by decide) rfl

/-- Claim C10: the unsupported-architecture branch inside the batch loop (the
else arm of the inference dispatch) is unreachable: every error `search` can
raise is the pre-loop unsupported-model error, never the in-loop
unsupported-tag error, because pre-loop identification either assigned one of
the three recognized tags or raised before the loop was entered. -/
theorem inloop_dispatch_error_unreachable
    (evalM : MetricEval) (s : GreedySearchState) (model : NNModule)
    (queue : List Batch) (device : String) (print_every : Nat)
    (e : SearchError)
    (he : GreedySearch.search evalM s model queue device print_every = .error e) :
    ∃ name, e = .unsupportedModel name := by
  cases hid : identifyArchitecture model with
  | error e2 =>
    have h2 : GreedySearch.search evalM s model queue device print_every =
        .error e2 := by
      unfold GreedySearch.search
      rw [hid]
    have he2 : SearchOutcome.error e2 = SearchOutcome.error e := h2.symm.trans he
    simp only [SearchOutcome.error.injEq] at he2
    subst he2
    exact identifyArchitecture_error hid
  | ok arch =>
    rw [search_eq_searchLoop evalM s queue device print_every hid] at he
    exact absurd he (searchLoop_not_error evalM model
      (identifyArchitecture_recognized hid) s.vocab s.metric device print_every
      queue ⟨s.target_list, s.predict_list, 0, 0, 0⟩ e)

/-- Witness for claim C10 at the one concrete way `search` can error: an
unrecognized model, whose error is indeed of the pre-loop kind. -/
theorem inloop_dispatch_error_unreachable_witness :
    ∃ name, SearchError.unsupportedModel "FooNet" = .unsupportedModel name :=
  inloop_dispatch_error_unreachable evalM0 gstate0 (.core mOther) [] "cpu" 1
    (.unsupportedModel "FooNet") rfl
